import Mathlib

/-!
# Verification of the glean `StringListMetricType` binding

Shallow embedding of `src/glean-core/python/glean/metrics/string_list.py`
together with the native metrics-recording core it calls through FFI.
The binding file is the authority for the Python-side logic (the early
return on `_disabled`, the default-ping resolution, the `__del__` guard,
the absence of any queue drain in the test methods).  The native core
(validator, metric store, error recorder) and the `Dispatcher` task queue
are not part of the sources, so they are modelled from the spec (§4.1,
§4.2, §4.3, §4.4); each such definition carries a doc comment saying so.
-/

namespace Glean

/-- Modelled from the spec: the engine's fixed maximum list length
(§3 invariant; the §8 concrete scenario fixes MAX_LIST_LENGTH = 20). -/
def MAX_LIST_LENGTH : Nat := 20

/-- Modelled from the spec: the engine's fixed maximum string length
(§3 invariant; fixed constant of the engine). -/
def MAX_STRING_LENGTH : Nat := 50

/-- Modelled from the spec: the error taxonomy of §3
(`ErrorKind ∈ {InvalidValue, InvalidLabel, InvalidState, InvalidOverflow}`);
in the binding this is `glean.testing.ErrorType`. -/
inductive ErrorType where
  | invalidValue
  | invalidLabel
  | invalidState
  | invalidOverflow
deriving DecidableEq

/-- Modelled from the spec: the `lifetime` enumeration of §3
(`enum{Ping, Application, User}`); in the binding this is
`glean.metrics.lifetime.Lifetime`. -/
inductive Lifetime where
  | ping
  | application
  | user
deriving DecidableEq

/-- Modelled from the spec (§4.1): per-element truncation — a string whose
length exceeds MAX_STRING_LENGTH is truncated (not dropped) to the limit. -/
def truncateString (s : String) : String :=
  ⟨s.data.take MAX_STRING_LENGTH⟩

/-- Modelled from the spec (§4.1 Validator):
`validate(candidateList) -> (acceptedList, errors)`.
If the candidate list is longer than MAX_LIST_LENGTH it is truncated to the
first MAX_LIST_LENGTH entries (stable order) and one InvalidOverflow error
is recorded; each element longer than MAX_STRING_LENGTH is truncated to the
limit and records one further InvalidOverflow error.  The second component
is the number of InvalidOverflow errors recorded. -/
def validate (candidate : List String) : List String × Nat :=
  let kept := candidate.take MAX_LIST_LENGTH
  let listErrs := if MAX_LIST_LENGTH < candidate.length then 1 else 0
  let elemErrs := (kept.filter (fun s => MAX_STRING_LENGTH < s.length)).length
  (kept.map truncateString, listErrs + elemErrs)

/-- Modelled from the spec (§4.2, §4.3): the native core's state for one
string-list metric — the Metric Store's value per destination ping and the
Error Recorder's counters keyed by error kind and ping. -/
structure CoreState where
  store : String → Option (List String)
  errors : ErrorType → String → Nat

/-- The empty core: no value stored for any ping, all error counters zero. -/
def CoreState.empty : CoreState :=
  { store := fun _ => none, errors := fun _ _ => 0 }

/-- Modelled from the spec (§4.2 `replace` / native `glean_string_list_set`):
discards the current stored list for every destination ping and writes the
validated new list, recording the validation's InvalidOverflow errors per
ping. -/
def replaceOp (pings : List String) (v : List String) (c : CoreState) : CoreState :=
  { store := fun p =>
      if p ∈ pings then some (validate v).1 else c.store p,
    errors := fun k p =>
      if k = ErrorType.invalidOverflow ∧ p ∈ pings then
        c.errors k p + (validate v).2
      else c.errors k p }

/-- Modelled from the spec (§4.2 `append` / native `glean_string_list_add`):
for each destination ping, reads the current stored list, concatenates the
new validated value, re-validates the concatenation (total-length truncation
may re-trigger), and writes back, recording the InvalidOverflow errors of
both validation passes. -/
def appendOp (pings : List String) (v : String) (c : CoreState) : CoreState :=
  { store := fun p =>
      if p ∈ pings then
        some (validate (((c.store p).getD []) ++ (validate [v]).1)).1
      else c.store p,
    errors := fun k p =>
      if k = ErrorType.invalidOverflow ∧ p ∈ pings then
        c.errors k p + (validate [v]).2
          + (validate (((c.store p).getD []) ++ (validate [v]).1)).2
      else c.errors k p }

/-- Modelled from the spec (§4.4): a task submitted to the Dispatcher queue —
the deferred body of the binding's `add` or `set`. -/
inductive Task where
  | addTask (value : String)
  | setTask (values : List String)

/-- Executing one queued task on the native core (the FFI call the deferred
body performs: `glean_string_list_add` / `glean_string_list_set`). -/
def runTask (pings : List String) (t : Task) (c : CoreState) : CoreState :=
  match t with
  | Task.addTask v => appendOp pings v c
  | Task.setTask vs => replaceOp pings vs c

/-- The state visible to the binding: the native core plus the pending
Dispatcher FIFO queue (§4.4: single-writer ordered queue; tasks in `queue`
are submitted but not yet applied). -/
structure GleanState where
  core : CoreState
  queue : List Task

/-- The initial state: empty core, empty queue. -/
def GleanState.empty : GleanState :=
  { core := CoreState.empty, queue := [] }

/-- Modelled from the spec (§4.4): draining the Dispatcher queue executes
every pending task strictly in submission order on the core and leaves the
queue empty. -/
def drain (pings : List String) (st : GleanState) : GleanState :=
  { core := st.queue.foldl (fun c t => runTask pings t c) st.core,
    queue := [] }

/-- The Python-side object of `string_list.py`: the fields `__init__`
assigns.  `_handle` is `none` when the attribute was never assigned
(mirroring the `getattr(self, "_handle", 0)` guard in `__del__`). -/
structure StringListMetricType where
  _disabled : Bool
  _send_in_pings : List String
  _handle : Option Nat

/-- `StringListMetricType.add` (src lines 55-69): returns immediately when
`self._disabled`; otherwise submits the deferred FFI call to the Dispatcher
queue (`@Dispatcher.launch`, modelled from the spec §4.4 as a fire-and-forget
FIFO enqueue). -/
def StringListMetricType.add (m : StringListMetricType) (value : String)
    (st : GleanState) : GleanState :=
  if m._disabled then st
  else { st with queue := st.queue ++ [Task.addTask value] }

/-- `StringListMetricType.set` (src lines 71-88): returns immediately when
`self._disabled`; otherwise submits the deferred FFI call to the Dispatcher
queue. -/
def StringListMetricType.set (m : StringListMetricType) (value : List String)
    (st : GleanState) : GleanState :=
  if m._disabled then st
  else { st with queue := st.queue ++ [Task.setTask value] }

/-- The exceptions the binding's test paths can raise: `IndexError` from
`self._send_in_pings[0]` on an empty list, and the
`ValueError("metric has no value")` of `test_get_value` (the spec's
`NoValueError`). -/
inductive PyErr where
  | indexError
  | noValueError
deriving DecidableEq

/-- The default-ping resolution shared by all three test methods
(src lines 102-103, 122-123, 151-152): `ping_name = self._send_in_pings[0]`
when `ping_name is None` — an `IndexError` when the list is empty. -/
def resolvePing (m : StringListMetricType) (ping_name : Option String) :
    Except PyErr String :=
  match ping_name with
  | some p => Except.ok p
  | none =>
    match m._send_in_pings with
    | [] => Except.error PyErr.indexError
    | p :: _ => Except.ok p

/-- `StringListMetricType.test_has_value` (src lines 90-109): resolves the
ping, then reads the store synchronously through the FFI
(`glean_string_list_test_has_value`, modelled from the spec §4.2 `getValue`).
Note: the method performs no queue drain. -/
def StringListMetricType.test_has_value (m : StringListMetricType)
    (ping_name : Option String) (st : GleanState) : Except PyErr Bool :=
  match resolvePing m ping_name with
  | Except.error e => Except.error e
  | Except.ok p => Except.ok (st.core.store p).isSome

/-- `StringListMetricType.test_get_value` (src lines 111-134): resolves the
ping, raises `ValueError("metric has no value")` when `test_has_value` is
false, otherwise returns the stored list (the native core serializes it as
a JSON array of strings, order and duplicates preserved, and `json.loads`
decodes it back — modelled as the identity on the stored list).  No queue
drain is performed. -/
def StringListMetricType.test_get_value (m : StringListMetricType)
    (ping_name : Option String) (st : GleanState) : Except PyErr (List String) :=
  match resolvePing m ping_name with
  | Except.error e => Except.error e
  | Except.ok p =>
    match st.core.store p with
    | none => Except.error PyErr.noValueError
    | some l => Except.ok l

/-- `StringListMetricType.test_get_num_recorded_errors` (src lines 136-158):
resolves the ping, then reads the Error Recorder counter synchronously
(`glean_string_list_test_get_num_recorded_errors`, modelled from the spec
§4.3 `count`).  No queue drain is performed. -/
def StringListMetricType.test_get_num_recorded_errors (m : StringListMetricType)
    (error_type : ErrorType) (ping_name : Option String) (st : GleanState) :
    Except PyErr Nat :=
  match resolvePing m ping_name with
  | Except.error e => Except.error e
  | Except.ok p => Except.ok (st.core.errors error_type p)

/-- Modelled from the spec (§6 register, §3 ownership): the engine-side
registry — the next fresh handle, the set of live registered handles, and,
for auditing disposal, how many times `glean_destroy_string_list_metric`
was invoked on each handle. -/
structure EngineState where
  nextHandle : Nat
  registered : List Nat
  destroyCount : Nat → Nat

/-- The initial engine state: no handles allocated, nothing destroyed. -/
def EngineState.empty : EngineState :=
  { nextHandle := 0, registered := [], destroyCount := fun _ => 0 }

/-- Modelled from the spec: `glean_new_string_list_metric` — the native
registration call of §6 `register`; allocates internal storage and returns
a fresh opaque nonzero handle referencing it. -/
def glean_new_string_list_metric (_category _name : String)
    (_send_in_pings : List String) (_lifetime : Lifetime) (_disabled : Bool)
    (e : EngineState) : Nat × EngineState :=
  let h := e.nextHandle + 1
  (h, { e with nextHandle := h, registered := h :: e.registered })

/-- Modelled from the spec: `glean_destroy_string_list_metric` — releases
the engine-side resources of the handle; we additionally count each
invocation to audit the at-most-once property. -/
def glean_destroy_string_list_metric (h : Nat) (e : EngineState) : EngineState :=
  { e with
    registered := e.registered.filter (fun h2 => h2 ≠ h),
    destroyCount := fun h2 =>
      if h2 = h then e.destroyCount h2 + 1 else e.destroyCount h2 }

/-- `StringListMetricType.__init__` (src lines 31-49): stores `disabled` and
`send_in_pings` on the object and unconditionally performs the native
registration call, assigning the returned handle. -/
def StringListMetricType.init (disabled : Bool) (category : String)
    (lifetime : Lifetime) (name : String) (send_in_pings : List String)
    (e : EngineState) : StringListMetricType × EngineState :=
  let (h, e2) :=
    glean_new_string_list_metric category name send_in_pings lifetime disabled e
  ({ _disabled := disabled, _send_in_pings := send_in_pings, _handle := some h },
   e2)

/-- `StringListMetricType.__del__` (src lines 51-53):
`if getattr(self, "_handle", 0) != 0: glean_destroy_string_list_metric(...)`.
The handle attribute is not cleared after the destroy call. -/
def StringListMetricType.del (m : StringListMetricType) (e : EngineState) :
    EngineState :=
  if m._handle.getD 0 ≠ 0 then
    glean_destroy_string_list_metric (m._handle.getD 0) e
  else e

/-! ## Concrete objects used by witnesses and counterexamples -/

/-- An enabled metric sent to the single ping `"metrics"` (the §8 scenario). -/
def mEx : StringListMetricType :=
  { _disabled := false, _send_in_pings := ["metrics"], _handle := some 1 }

/-- A disabled metric. -/
def mDis : StringListMetricType :=
  { _disabled := true, _send_in_pings := ["metrics"], _handle := some 2 }

/-- A metric with an empty `send_in_pings` list. -/
def mNoPings : StringListMetricType :=
  { _disabled := false, _send_in_pings := [], _handle := some 3 }

/-- An object whose `_handle` attribute was never assigned (as when
`__init__` fails before the assignment). -/
def mNoHandle : StringListMetricType :=
  { _disabled := false, _send_in_pings := ["metrics"], _handle := none }

/-- A metric holding the live handle 5, for the disposal counterexample. -/
def mLive : StringListMetricType :=
  { _disabled := false, _send_in_pings := ["metrics"], _handle := some 5 }

/-- A string of 51 characters, one over MAX_STRING_LENGTH. -/
def longString : String := String.mk (List.replicate 51 'a')

/-- A list of 21 oversize strings, one over MAX_LIST_LENGTH. -/
def overlongList : List String := List.replicate 21 longString

/-- A state whose store already holds `["x", "y"]` for ping `"metrics"`. -/
def stStored : GleanState :=
  { core :=
      { store := fun p => if p = "metrics" then some ["x", "y"] else none,
        errors := fun _ _ => 0 },
    queue := [] }

/-! ## Validator lemmas -/

/-- A string within the length limit is left unchanged by truncation. -/
theorem truncateString_of_le (s : String) (h : s.length ≤ MAX_STRING_LENGTH) :
    truncateString s = s := by
  unfold truncateString
  rw [List.take_of_length_le h]

/-- Truncation always yields a string within the length limit. -/
theorem truncateString_length_le (s : String) :
    (truncateString s).length ≤ MAX_STRING_LENGTH := by
  unfold truncateString
  exact List.length_take_le MAX_STRING_LENGTH s.data

/-- A list within both limits passes validation unchanged and error-free. -/
theorem validate_of_valid (v : List String) (hlen : v.length ≤ MAX_LIST_LENGTH)
    (helem : ∀ s ∈ v, s.length ≤ MAX_STRING_LENGTH) :
    validate v = (v, 0) := by
  unfold validate
  rw [List.take_of_length_le hlen]
  have h1 : ¬ MAX_LIST_LENGTH < v.length := not_lt.mpr hlen
  have h2 : v.filter (fun s => decide (MAX_STRING_LENGTH < s.length)) = [] := by
    rw [List.filter_eq_nil_iff]
    intro s hs
    simp [not_lt.mpr (helem s hs)]
  have h3 : v.map truncateString = v := by
    conv_rhs => rw [← List.map_id v]
    exact List.map_congr_left (fun s hs => truncateString_of_le s (helem s hs))
  simp [h1, h2, h3]

/-- An overlong list of in-limit strings validates to its first
MAX_LIST_LENGTH entries with exactly one error. -/
theorem validate_overflow (v : List String) (hlen : MAX_LIST_LENGTH < v.length)
    (helem : ∀ s ∈ v, s.length ≤ MAX_STRING_LENGTH) :
    validate v = (v.take MAX_LIST_LENGTH, 1) := by
  unfold validate
  have htake : ∀ s ∈ v.take MAX_LIST_LENGTH, s.length ≤ MAX_STRING_LENGTH :=
    fun s hs => helem s (List.take_subset _ _ hs)
  have h2 : (v.take MAX_LIST_LENGTH).filter
      (fun s => decide (MAX_STRING_LENGTH < s.length)) = [] := by
    rw [List.filter_eq_nil_iff]
    intro s hs
    simp [not_lt.mpr (htake s hs)]
  have h3 : (v.take MAX_LIST_LENGTH).map truncateString = v.take MAX_LIST_LENGTH := by
    conv_rhs => rw [← List.map_id (v.take MAX_LIST_LENGTH)]
    exact List.map_congr_left (fun s hs => truncateString_of_le s (htake s hs))
  simp [hlen, h2, h3]

/-- The accepted list never exceeds MAX_LIST_LENGTH entries. -/
theorem validate_length_le (v : List String) :
    (validate v).1.length ≤ MAX_LIST_LENGTH := by
  unfold validate
  simp only [List.length_map]
  exact List.length_take_le MAX_LIST_LENGTH v

/-- Every accepted element is within MAX_STRING_LENGTH. -/
theorem validate_mem_length_le (v : List String) :
    ∀ s ∈ (validate v).1, s.length ≤ MAX_STRING_LENGTH := by
  unfold validate
  intro s hs
  simp only [List.mem_map] at hs
  obtain ⟨t, -, rfl⟩ := hs
  exact truncateString_length_le t

/-! ## Dispatcher lemmas -/

/-- Draining after a single enabled `set` applies exactly one `replace`. -/
theorem drain_set (m : StringListMetricType) (v : List String) (st : GleanState)
    (hd : m._disabled = false) (hq : st.queue = []) :
    drain m._send_in_pings (m.set v st) =
      { core := replaceOp m._send_in_pings v st.core, queue := [] } := by
  simp [StringListMetricType.set, hd, hq, drain, runTask]

/-- Draining after a single enabled `add` applies exactly one `append`. -/
theorem drain_add (m : StringListMetricType) (v : String) (st : GleanState)
    (hd : m._disabled = false) (hq : st.queue = []) :
    drain m._send_in_pings (m.add v st) =
      { core := appendOp m._send_in_pings v st.core, queue := [] } := by
  simp [StringListMetricType.add, hd, hq, drain, runTask]

/-- Draining after two enabled `add`s applies two `append`s in call order. -/
theorem drain_add_add (m : StringListMetricType) (a b : String) (st : GleanState)
    (hd : m._disabled = false) (hq : st.queue = []) :
    drain m._send_in_pings (m.add b (m.add a st)) =
      { core := appendOp m._send_in_pings b (appendOp m._send_in_pings a st.core),
        queue := [] } := by
  simp [StringListMetricType.add, hd, hq, drain, runTask]

/-! ## Claims -/

/-- C1 (counterexample): the claim that every test/introspection call first
drains the dispatcher queue, so that it observes every previously-submitted
`add`, is false.  On an enabled metric, after `add "x"` the task is still
pending in the queue and `test_has_value` observes `false`; only an explicit
drain of the queue makes the value visible (`true`). -/
theorem C1_counterexample :
    StringListMetricType.test_has_value mEx (some "metrics")
        (StringListMetricType.add mEx "x" GleanState.empty) = Except.ok false ∧
    (Except.ok false : Except PyErr Bool) ≠ Except.ok true ∧
    StringListMetricType.test_has_value mEx (some "metrics")
        (drain mEx._send_in_pings
          (StringListMetricType.add mEx "x" GleanState.empty)) =
      Except.ok true :=
  ⟨rfl, by simp, rfl⟩

/-- C1 (amended): the test methods `test_has_value`, `test_get_value` and
`test_get_num_recorded_errors` perform no queue drain: their result depends
only on the already-applied core state and is independent of the pending
task queue.  A previously-submitted `add`/`set` is reflected only once the
queue has been drained; `drain` applies all pending tasks strictly in
submission order and empties the queue. -/
theorem C1_test_reads_bypass_queue (m : StringListMetricType) (k : ErrorType)
    (pn : Option String) (pings : List String) (c : CoreState)
    (q q2 : List Task) :
    StringListMetricType.test_has_value m pn { core := c, queue := q } =
        StringListMetricType.test_has_value m pn { core := c, queue := q2 } ∧
    StringListMetricType.test_get_value m pn { core := c, queue := q } =
        StringListMetricType.test_get_value m pn { core := c, queue := q2 } ∧
    StringListMetricType.test_get_num_recorded_errors m k pn
          { core := c, queue := q } =
        StringListMetricType.test_get_num_recorded_errors m k pn
          { core := c, queue := q2 } ∧
    (drain pings { core := c, queue := q }).core =
        q.foldl (fun c2 t => runTask pings t c2) c ∧
    (drain pings { core := c, queue := q }).queue = [] :=
  ⟨rfl, rfl, rfl, rfl, rfl⟩

/-- C2: `test_get_value` fails with the no-value error exactly when no value
is stored for the consulted ping, returns the stored list otherwise, and
the failure coincides with `test_has_value` answering `false`. -/
theorem C2_test_get_value_absent_iff (m : StringListMetricType) (p : String)
    (st : GleanState) :
    (m.test_get_value (some p) st = Except.error PyErr.noValueError ↔
        st.core.store p = none) ∧
    (∀ l, st.core.store p = some l → m.test_get_value (some p) st = Except.ok l) ∧
    (m.test_get_value (some p) st = Except.error PyErr.noValueError ↔
        m.test_has_value (some p) st = Except.ok false) := by
  unfold StringListMetricType.test_get_value StringListMetricType.test_has_value
    resolvePing
  cases h : st.core.store p <;> simp [h]

/-- C2 (witness): on the empty state `test_get_value` fails with the
no-value error; on a state storing `["x", "y"]` it returns that list. -/
theorem C2_witness :
    StringListMetricType.test_get_value mEx (some "metrics") GleanState.empty =
        Except.error PyErr.noValueError ∧
    StringListMetricType.test_get_value mEx (some "metrics") stStored =
        Except.ok ["x", "y"] :=
  ⟨(C2_test_get_value_absent_iff mEx "metrics" GleanState.empty).1.mpr rfl,
   (C2_test_get_value_absent_iff mEx "metrics" stStored).2.1 ["x", "y"] rfl⟩

/-- C3: on a disabled metric, `add` and `set` return before enqueuing: the
whole state (queue, store, error counters) is unchanged, so `test_has_value`
never changes and no error is recorded. -/
theorem C3_disabled_noop (m : StringListMetricType) (v : String)
    (vs : List String) (st : GleanState) (h : m._disabled = true) :
    m.add v st = st ∧ m.set vs st = st ∧
    (m.add v st).queue = st.queue ∧ (m.set vs st).queue = st.queue ∧
    (∀ pn, m.test_has_value pn (m.add v st) = m.test_has_value pn st) ∧
    (∀ k pn, m.test_get_num_recorded_errors k pn (m.set vs st) =
        m.test_get_num_recorded_errors k pn st) := by
  simp [StringListMetricType.add, StringListMetricType.set, h]

/-- C3 (witness): the disabled metric `mDis` at a concrete input. -/
theorem C3_witness :
    mDis.add "x" GleanState.empty = GleanState.empty ∧
    mDis.set ["x", "y"] GleanState.empty = GleanState.empty :=
  ⟨(C3_disabled_noop mDis "x" ["x", "y"] GleanState.empty rfl).1,
   (C3_disabled_noop mDis "x" ["x", "y"] GleanState.empty rfl).2.1⟩

/-- Pointwise characterisation of core-state equality. -/
theorem CoreState.eq_of (c1 c2 : CoreState)
    (hs : ∀ p, c1.store p = c2.store p)
    (he : ∀ k p, c1.errors k p = c2.errors k p) : c1 = c2 := by
  cases c1
  cases c2
  simp only [CoreState.mk.injEq]
  exact ⟨funext hs, funext fun k => funext (he k)⟩

/-- C4 (counterexample): for a list of 21 strings of 51 characters each
(MAX_LIST_LENGTH = 20, MAX_STRING_LENGTH = 50), `set` does not store the
first 20 elements verbatim (they are each truncated to 50 characters) and
records 21 InvalidOverflow errors (one for the list, one per truncated
element), not exactly one — refuting the claim as universally stated. -/
theorem C4_counterexample :
    ¬ ((drain mEx._send_in_pings
          (StringListMetricType.set mEx overlongList GleanState.empty)).core.store
            "metrics" = some (overlongList.take MAX_LIST_LENGTH) ∧
       (drain mEx._send_in_pings
          (StringListMetricType.set mEx overlongList GleanState.empty)).core.errors
            ErrorType.invalidOverflow "metrics" = 1) ∧
    (drain mEx._send_in_pings
        (StringListMetricType.set mEx overlongList GleanState.empty)).core.errors
          ErrorType.invalidOverflow "metrics" = 21 := by
  decide

/-- C4 (amended): for every list `v` longer than MAX_LIST_LENGTH whose
elements are each within MAX_STRING_LENGTH, `set v` stores exactly the
first MAX_LIST_LENGTH elements of `v` (stable order) and records exactly
one InvalidOverflow error for each destination ping; each oversize element
would additionally be truncated and record one further InvalidOverflow. -/
theorem C4_set_overlong (m : StringListMetricType) (v : List String)
    (st : GleanState) (p : String)
    (hd : m._disabled = false) (hq : st.queue = [])
    (hlen : MAX_LIST_LENGTH < v.length)
    (helem : ∀ s ∈ v, s.length ≤ MAX_STRING_LENGTH)
    (hp : p ∈ m._send_in_pings) :
    (drain m._send_in_pings (m.set v st)).core.store p =
        some (v.take MAX_LIST_LENGTH) ∧
    (drain m._send_in_pings (m.set v st)).core.errors ErrorType.invalidOverflow p =
        st.core.errors ErrorType.invalidOverflow p + 1 := by
  rw [drain_set m v st hd hq]
  simp [replaceOp, validate_overflow v hlen helem, hp]

/-- C4 (witness): 21 copies of `"a"` on the metric of the §8 scenario. -/
theorem C4_witness :
    (drain mEx._send_in_pings
        (StringListMetricType.set mEx (List.replicate 21 "a")
          GleanState.empty)).core.store "metrics" =
      some ((List.replicate 21 "a").take MAX_LIST_LENGTH) ∧
    (drain mEx._send_in_pings
        (StringListMetricType.set mEx (List.replicate 21 "a")
          GleanState.empty)).core.errors ErrorType.invalidOverflow "metrics" =
      GleanState.empty.core.errors ErrorType.invalidOverflow "metrics" + 1 :=
  C4_set_overlong mEx (List.replicate 21 "a") GleanState.empty "metrics"
    rfl rfl (by decide) (by decide) (by decide)

/-- C5: on an enabled metric, for every list within both limits, `set v`
followed by a queue drain and a test read yields exactly `v` (order and
duplicates preserved) and leaves every error counter unchanged. -/
theorem C5_set_roundtrip (m : StringListMetricType) (v : List String)
    (st : GleanState) (p : String)
    (hd : m._disabled = false) (hq : st.queue = [])
    (hlen : v.length ≤ MAX_LIST_LENGTH)
    (helem : ∀ s ∈ v, s.length ≤ MAX_STRING_LENGTH)
    (hp : p ∈ m._send_in_pings) :
    m.test_get_value (some p) (drain m._send_in_pings (m.set v st)) =
        Except.ok v ∧
    ∀ k, (drain m._send_in_pings (m.set v st)).core.errors k p =
        st.core.errors k p := by
  rw [drain_set m v st hd hq]
  constructor
  · unfold StringListMetricType.test_get_value resolvePing
    simp [replaceOp, validate_of_valid v hlen helem, hp]
  · intro k
    simp [replaceOp, validate_of_valid v hlen helem]

/-- C5 (witness): `set ["x", "y"]` round-trips on the §8 scenario metric. -/
theorem C5_witness :
    StringListMetricType.test_get_value mEx (some "metrics")
        (drain mEx._send_in_pings
          (StringListMetricType.set mEx ["x", "y"] GleanState.empty)) =
      Except.ok ["x", "y"] ∧
    ∀ k, (drain mEx._send_in_pings
        (StringListMetricType.set mEx ["x", "y"] GleanState.empty)).core.errors
          k "metrics" =
      GleanState.empty.core.errors k "metrics" :=
  C5_set_roundtrip mEx ["x", "y"] GleanState.empty "metrics"
    rfl rfl (by decide) (by decide) (by decide)

/-- C6: on an enabled metric with no stored value on any destination ping,
`add a; add b` (drained) reaches exactly the same state as `set [a, b]`
(drained), for all strings `a`, `b` within the length limit — append
semantics with order preserved, identical error counters included. -/
theorem C6_add_add_eq_set (m : StringListMetricType) (a b : String)
    (st : GleanState) (hd : m._disabled = false) (hq : st.queue = [])
    (ha : a.length ≤ MAX_STRING_LENGTH) (hb : b.length ≤ MAX_STRING_LENGTH)
    (hempty : ∀ q ∈ m._send_in_pings, st.core.store q = none) :
    drain m._send_in_pings (m.add b (m.add a st)) =
      drain m._send_in_pings (m.set [a, b] st) := by
  rw [drain_add_add m a b st hd hq, drain_set m [a, b] st hd hq]
  have hva : validate [a] = ([a], 0) :=
    validate_of_valid [a] (by norm_num [MAX_LIST_LENGTH]) (by simpa using ha)
  have hvb : validate [b] = ([b], 0) :=
    validate_of_valid [b] (by norm_num [MAX_LIST_LENGTH]) (by simpa using hb)
  have hvab : validate [a, b] = ([a, b], 0) := by
    refine validate_of_valid [a, b] (by norm_num [MAX_LIST_LENGTH]) ?_
    intro s hs
    simp only [List.mem_cons, List.not_mem_nil, or_false] at hs
    rcases hs with rfl | rfl
    · exact ha
    · exact hb
  simp only [GleanState.mk.injEq, and_true]
  apply CoreState.eq_of
  · intro p
    by_cases hp : p ∈ m._send_in_pings
    · simp [appendOp, replaceOp, hp, hempty p hp, hva, hvb, hvab]
    · simp [appendOp, replaceOp, hp]
  · intro k p
    by_cases hp : p ∈ m._send_in_pings
    · by_cases hk : k = ErrorType.invalidOverflow
      · simp [appendOp, replaceOp, hp, hk, hempty p hp, hva, hvb, hvab]
      · simp [appendOp, replaceOp, hk]
    · simp [appendOp, replaceOp, hp]

/-- C6 (witness): `add "x"; add "y"` equals `set ["x", "y"]` from empty. -/
theorem C6_witness :
    drain mEx._send_in_pings
        (StringListMetricType.add mEx "y"
          (StringListMetricType.add mEx "x" GleanState.empty)) =
      drain mEx._send_in_pings
        (StringListMetricType.set mEx ["x", "y"] GleanState.empty) :=
  C6_add_add_eq_set mEx "x" "y" GleanState.empty rfl rfl (by decide) (by decide)
    (fun _ _ => rfl)

/-- C7 (counterexample): disposal is not idempotent.  `__del__` guards only
on the handle being nonzero and never clears it, so invoking it twice on an
object holding live handle 5 calls the engine-side destroy twice — the
engine destroy is not invoked at most once per handle. -/
theorem C7_counterexample :
    (StringListMetricType.del mLive
        (StringListMetricType.del mLive EngineState.empty)).destroyCount 5 = 2 ∧
    ¬ (StringListMetricType.del mLive
        (StringListMetricType.del mLive EngineState.empty)).destroyCount 5 ≤ 1 := by
  decide

/-- C7 (amended): `__del__` is a no-op when the handle attribute is unset or
zero (guarding a partially-constructed object); on a nonzero handle every
invocation calls the engine-side destroy exactly once on that handle, and
since the handle field is not cleared, a second invocation destroys again —
at-most-once disposal relies on the host runtime invoking the finalizer at
most once per object, not on the guard. -/
theorem C7_del_characterisation (m : StringListMetricType) (e : EngineState) :
    (m._handle.getD 0 = 0 → m.del e = e) ∧
    (m._handle.getD 0 ≠ 0 →
      (m.del e).destroyCount (m._handle.getD 0) =
          e.destroyCount (m._handle.getD 0) + 1 ∧
      (m.del (m.del e)).destroyCount (m._handle.getD 0) =
          e.destroyCount (m._handle.getD 0) + 2) := by
  constructor
  · intro h0
    simp [StringListMetricType.del, h0]
  · intro hne
    simp [StringListMetricType.del, hne, glean_destroy_string_list_metric]

/-- C7 (witness): an object with no handle attribute disposes as a no-op;
an object holding handle 5 destroys once per invocation, twice in two. -/
theorem C7_witness :
    StringListMetricType.del mNoHandle EngineState.empty = EngineState.empty ∧
    (StringListMetricType.del mLive
        (StringListMetricType.del mLive EngineState.empty)).destroyCount 5 =
      EngineState.empty.destroyCount 5 + 2 :=
  ⟨(C7_del_characterisation mNoHandle EngineState.empty).1 rfl,
   ((C7_del_characterisation mLive EngineState.empty).2 (by decide)).2⟩

/-- C8: the production recording paths are total — in the embedding `add`
and `set` are functions returning a successor state for every input, with
no error channel — and for every input, however oversize, the drained state
holds a stored value satisfying the engine invariants (truncated, never
rejected): the list has at most MAX_LIST_LENGTH entries, each within
MAX_STRING_LENGTH. -/
theorem C8_recording_never_fails (m : StringListMetricType) (v : List String)
    (a : String) (st : GleanState) (p : String)
    (hd : m._disabled = false) (hq : st.queue = [])
    (hp : p ∈ m._send_in_pings) :
    (∃ stored,
      (drain m._send_in_pings (m.set v st)).core.store p = some stored ∧
      stored.length ≤ MAX_LIST_LENGTH ∧
      ∀ s ∈ stored, s.length ≤ MAX_STRING_LENGTH) ∧
    (∃ stored,
      (drain m._send_in_pings (m.add a st)).core.store p = some stored ∧
      stored.length ≤ MAX_LIST_LENGTH ∧
      ∀ s ∈ stored, s.length ≤ MAX_STRING_LENGTH) := by
  constructor
  · rw [drain_set m v st hd hq]
    refine ⟨(validate v).1, ?_, validate_length_le v, validate_mem_length_le v⟩
    simp [replaceOp, hp]
  · rw [drain_add m a st hd hq]
    refine ⟨(validate (((st.core.store p).getD []) ++ (validate [a]).1)).1, ?_,
      validate_length_le _, validate_mem_length_le _⟩
    simp [appendOp, hp]

/-- C8 (witness): a 100-element list of 51-character strings and a
51-character string are both recorded without failure, truncated into the
invariants. -/
theorem C8_witness :
    (∃ stored,
      (drain mEx._send_in_pings
          (StringListMetricType.set mEx (List.replicate 100 longString)
            GleanState.empty)).core.store "metrics" = some stored ∧
      stored.length ≤ MAX_LIST_LENGTH ∧
      ∀ s ∈ stored, s.length ≤ MAX_STRING_LENGTH) ∧
    (∃ stored,
      (drain mEx._send_in_pings
          (StringListMetricType.add mEx longString
            GleanState.empty)).core.store "metrics" = some stored ∧
      stored.length ≤ MAX_LIST_LENGTH ∧
      ∀ s ∈ stored, s.length ≤ MAX_STRING_LENGTH) :=
  C8_recording_never_fails mEx (List.replicate 100 longString) longString
    GleanState.empty "metrics" rfl rfl (by decide)

/-- C9: when `ping_name` is omitted (`None`), every test method consults
exactly the first element of `send_in_pings`; with an empty `send_in_pings`
the default-ping lookup itself fails (`IndexError` from
`self._send_in_pings[0]`) before any value is read. -/
theorem C9_default_ping (m : StringListMetricType) (st : GleanState)
    (k : ErrorType) :
    (∀ p rest, m._send_in_pings = p :: rest →
      m.test_has_value none st = m.test_has_value (some p) st ∧
      m.test_get_value none st = m.test_get_value (some p) st ∧
      m.test_get_num_recorded_errors k none st =
        m.test_get_num_recorded_errors k (some p) st) ∧
    (m._send_in_pings = [] →
      m.test_has_value none st = Except.error PyErr.indexError ∧
      m.test_get_value none st = Except.error PyErr.indexError ∧
      m.test_get_num_recorded_errors k none st =
        Except.error PyErr.indexError) := by
  constructor
  · intro p rest hlist
    unfold StringListMetricType.test_has_value StringListMetricType.test_get_value
      StringListMetricType.test_get_num_recorded_errors resolvePing
    rw [hlist]
    exact ⟨rfl, rfl, rfl⟩
  · intro hlist
    unfold StringListMetricType.test_has_value StringListMetricType.test_get_value
      StringListMetricType.test_get_num_recorded_errors resolvePing
    rw [hlist]
    exact ⟨rfl, rfl, rfl⟩

/-- C9 (witness): on `mEx` the omitted ping resolves to `"metrics"`; on a
metric with empty `send_in_pings`, each test method fails with the index
error. -/
theorem C9_witness :
    (StringListMetricType.test_has_value mEx none GleanState.empty =
        StringListMetricType.test_has_value mEx (some "metrics")
          GleanState.empty) ∧
    StringListMetricType.test_has_value mNoPings none GleanState.empty =
        Except.error PyErr.indexError ∧
    StringListMetricType.test_get_value mNoPings none GleanState.empty =
        Except.error PyErr.indexError ∧
    StringListMetricType.test_get_num_recorded_errors mNoPings
        ErrorType.invalidOverflow none GleanState.empty =
      Except.error PyErr.indexError :=
  ⟨((C9_default_ping mEx GleanState.empty ErrorType.invalidOverflow).1
      "metrics" [] rfl).1,
   (C9_default_ping mNoPings GleanState.empty ErrorType.invalidOverflow).2 rfl⟩

/-- C10: `__init__` always performs the native registration call and stores
the returned handle, for every combination of arguments — `disabled = true`
included: the constructed object holds a nonzero live handle registered in
the engine, and its fields record the given `disabled` flag and ping list. -/
theorem C10_init_always_registers (disabled : Bool) (category : String)
    (lifetime : Lifetime) (name : String) (send_in_pings : List String)
    (e : EngineState) :
    (StringListMetricType.init disabled category lifetime name send_in_pings
        e).1._handle = some (e.nextHandle + 1) ∧
    e.nextHandle + 1 ≠ 0 ∧
    (e.nextHandle + 1) ∈ (StringListMetricType.init disabled category lifetime
        name send_in_pings e).2.registered ∧
    (StringListMetricType.init disabled category lifetime name send_in_pings
        e).1._disabled = disabled ∧
    (StringListMetricType.init disabled category lifetime name send_in_pings
        e).1._send_in_pings = send_in_pings := by
  refine ⟨rfl, Nat.succ_ne_zero _, ?_, rfl, rfl⟩
  simp [StringListMetricType.init, glean_new_string_list_metric]

end Glean
